import Mathlib

/-!
Verification of the SpotifAI deepfake-detection verdict logic.

The definitions below shallowly embed the pure decision logic of
`DeepfakeBench/training/demo_server.py` and `native_host/server.py`:
raw model probabilities become rationals, the per-model threshold/boost
adjustment, the three-model ensemble voting rules, the suspicious flag,
and the per-video majority aggregation are translated function by
function from the Python source.
-/

namespace SpotifAI

/-- Binary per-model label, the strings "FAKE" / "REAL" in the Python code. -/
inductive Label
  | FAKE
  | REAL
deriving DecidableEq, Repr

/-- Raw label from a model probability: `"FAKE" if prob >= 0.5 else "REAL"`
(demo_server.py line 437). -/
def rawLabel (p : ℚ) : Label :=
  if 1/2 ≤ p then Label.FAKE else Label.REAL

/-- Raw confidence from a model probability: `prob if prob >= 0.5 else (1 - prob)`
(demo_server.py line 438). -/
def rawConf (p : ℚ) : ℚ :=
  if 1/2 ≤ p then p else 1 - p

/-- Result triple of `_apply_confidence_threshold`:
`(final_prediction, final_confidence, was_converted)`. -/
structure Adjusted where
  label : Label
  confidence : ℚ
  was_converted : Bool
deriving DecidableEq, Repr

/-- Default `FAKE_CONFIDENCE_THRESHOLD` (demo_server.py line 70). -/
def FAKE_CONFIDENCE_THRESHOLD : ℚ := 70/100

/-- Default `REAL_CONFIDENCE_BOOST` (demo_server.py line 73). -/
def REAL_CONFIDENCE_BOOST : ℚ := 25/100

/-- Embeds `_apply_confidence_threshold` (demo_server.py lines 367-387), with the
threshold `T` and boost `B` as parameters (the Python code reads them from
`self.FAKE_CONFIDENCE_THRESHOLD` and `self.REAL_CONFIDENCE_BOOST`). -/
def applyConfidenceThreshold (T B : ℚ) (originalPrediction : Label)
    (originalConfidence : ℚ) : Adjusted :=
  if originalPrediction = Label.FAKE ∧ originalConfidence < T then
    ⟨Label.REAL, min (originalConfidence + B) 1, true⟩
  else if originalPrediction = Label.REAL then
    ⟨Label.REAL, min (originalConfidence + B) 1, false⟩
  else
    ⟨originalPrediction, originalConfidence, false⟩

/-- Single-model pipeline for one raw probability: raw label and confidence,
then `_apply_confidence_threshold` (demo_server.py lines 437-443). -/
def singleModelAdjusted (T B p : ℚ) : Adjusted :=
  applyConfidenceThreshold T B (rawLabel p) (rawConf p)

/-- The entry of one model as consumed by `_calculate_ensemble_verdict`:
the `prediction`, `confidence` and `prob` dict fields. -/
structure Vote where
  prediction : Label
  confidence : ℚ
  prob : ℚ
deriving DecidableEq, Repr

/-- The raw (unadjusted) vote a probability produces in ensemble mode. -/
def rawVote (p : ℚ) : Vote :=
  ⟨rawLabel p, rawConf p, p⟩

/-- The partition test of `_calculate_ensemble_verdict`:
`result[prediction] == FAKE`. -/
def isFakeVote (v : Vote) : Bool :=
  match v.prediction with
  | Label.FAKE => true
  | Label.REAL => false

/-- Python `max(votes, key confidence)`: first element of
maximal confidence, `none` on an empty list (where Python would raise). -/
def pyMax : List Vote → Option Vote
  | [] => none
  | v :: rest =>
      some (rest.foldl (fun best x => if best.confidence < x.confidence then x else best) v)

/-- Verdict fields set by the voting rules before `_add_suspicious_flag`. -/
structure PreVerdict where
  prob : ℚ
  prediction : Label
  confidence : ℚ
deriving DecidableEq, Repr

/-- Ensemble verdict after `_add_suspicious_flag`. -/
structure EnsembleVerdict where
  prob : ℚ
  prediction : Label
  confidence : ℚ
  suspicious : Bool
deriving DecidableEq, Repr

/-- Embeds `_add_suspicious_flag` (demo_server.py lines 467-478):
`suspicious = True` iff `0.50 <= confidence <= 0.65`. -/
def addSuspiciousFlag (r : PreVerdict) : EnsembleVerdict :=
  ⟨r.prob, r.prediction, r.confidence,
    if 1/2 ≤ r.confidence ∧ r.confidence ≤ 65/100 then true else false⟩

/-- Mean of a list of rationals; `np.mean(xs) if xs else 0.0` yields 0 on the
empty list everywhere this is used. -/
def mean (l : List ℚ) : ℚ :=
  if l.isEmpty then 0 else l.sum / (l.length : ℚ)

/-- Fallback branch of `_calculate_ensemble_verdict` (demo_server.py lines
591-603): average the probabilities, relabel by the 0.5 cut. -/
def fallbackVerdict (results : List Vote) : EnsembleVerdict :=
  addSuspiciousFlag
    ⟨mean (results.map Vote.prob),
      rawLabel (mean (results.map Vote.prob)),
      rawConf (mean (results.map Vote.prob))⟩

/-- Embeds `_calculate_ensemble_verdict` (demo_server.py lines 480-603).
The votes are split into FAKE and non-FAKE lists; rules 1-4 fire on the
exact counts (3/0, 0/3, 1/2, 2/1), anything else falls back to averaging.
The wildcard match arms are unreachable given the length guards (Python
would only hit them by indexing an empty list). -/
def calculateEnsembleVerdict (results : List Vote) : EnsembleVerdict :=
  if (results.filter isFakeVote).length = 3 ∧
      (results.filter (fun v => !isFakeVote v)).length = 0 then
    match pyMax (results.filter isFakeVote) with
    | some bestFake => addSuspiciousFlag ⟨bestFake.prob, Label.FAKE, bestFake.confidence⟩
    | none => fallbackVerdict results
  else if (results.filter isFakeVote).length = 0 ∧
      (results.filter (fun v => !isFakeVote v)).length = 3 then
    match pyMax (results.filter (fun v => !isFakeVote v)) with
    | some bestReal => addSuspiciousFlag ⟨bestReal.prob, Label.REAL, bestReal.confidence⟩
    | none => fallbackVerdict results
  else if (results.filter isFakeVote).length = 1 ∧
      (results.filter (fun v => !isFakeVote v)).length = 2 then
    match results.filter isFakeVote, pyMax (results.filter (fun v => !isFakeVote v)) with
    | fakeModel :: _, some bestReal =>
        if fakeModel.confidence > 85/100 then
          if bestReal.confidence > 85/100 then
            addSuspiciousFlag ⟨bestReal.prob, Label.REAL, bestReal.confidence⟩
          else
            addSuspiciousFlag ⟨fakeModel.prob, Label.FAKE, fakeModel.confidence⟩
        else
          addSuspiciousFlag ⟨bestReal.prob, Label.REAL, bestReal.confidence⟩
    | _, _ => fallbackVerdict results
  else if (results.filter isFakeVote).length = 2 ∧
      (results.filter (fun v => !isFakeVote v)).length = 1 then
    match results.filter (fun v => !isFakeVote v), pyMax (results.filter isFakeVote) with
    | realModel :: _, some bestFake =>
        if realModel.confidence > 85/100 then
          if bestFake.confidence > 85/100 then
            addSuspiciousFlag ⟨bestFake.prob, Label.FAKE, bestFake.confidence⟩
          else
            addSuspiciousFlag ⟨realModel.prob, Label.REAL, realModel.confidence⟩
        else
          addSuspiciousFlag ⟨bestFake.prob, Label.FAKE, bestFake.confidence⟩
    | _, _ => fallbackVerdict results
  else
    fallbackVerdict results

/-- Per-model scoring loop of `process_image` (demo_server.py lines 424-458)
applied to the list of model probabilities, paired with the ensemble verdict
computed when more than one model is loaded (lines 460-464): in single-model
mode the vote is the adjusted prediction, otherwise the raw one. -/
def processImage (T B : ℚ) (probs : List ℚ) : List Vote × Option EnsembleVerdict :=
  let votes := probs.map (fun p =>
    if probs.length = 1 then
      ⟨(singleModelAdjusted T B p).label, (singleModelAdjusted T B p).confidence, p⟩
    else rawVote p)
  if 1 < probs.length then (votes, some (calculateEnsembleVerdict votes))
  else (votes, none)

/-- Embeds `infer_using_server` (native_host/server.py lines 272-380):
`None` from the face aligner short-circuits to the error `No face detected`
before any model is consulted; otherwise the per-model loop (lines 322-358)
and the ensemble call (lines 363-365) repeat `process_image`s logic, with
the probabilities the models would produce passed in as `modelProbs`. -/
def inferUsingServer (T B : ℚ) (modelProbs : List ℚ) (faceAligned : Option Unit) :
    Except String (List Vote × Option EnsembleVerdict) :=
  match faceAligned with
  | none => Except.error "No face detected"
  | some _ => Except.ok (processImage T B modelProbs)

/-- Video verdict of `process_video` in single-model mode
(demo_server.py lines 877-908). -/
structure SingleVideoVerdict where
  video_verdict : Label
  video_confidence : ℚ
  total_frames_analyzed : ℕ
  fake_frames : ℕ
  real_frames : ℕ
deriving DecidableEq, Repr

/-- Three-way video label of ensemble mode. -/
inductive VideoLabel
  | FAKE
  | REAL
  | SUSPICIOUS
deriving DecidableEq, Repr

/-- Video verdict of `process_video` in ensemble mode
(demo_server.py lines 910-957). -/
structure EnsembleVideoVerdict where
  video_verdict : VideoLabel
  video_confidence : ℚ
  total_frames_analyzed : ℕ
  fake_frames : ℕ
  real_frames : ℕ
  suspicious_frames : ℕ
deriving DecidableEq, Repr

/-- The count test of the single-model video loop:
`frame_result[model_name].prediction == FAKE`. -/
def isFakeAdj (a : Adjusted) : Bool :=
  match a.label with
  | Label.FAKE => true
  | Label.REAL => false

/-- The confidence-bucket test of the single-model REAL branch:
`f[model_name].prediction == REAL`. -/
def isRealAdj (a : Adjusted) : Bool :=
  match a.label with
  | Label.FAKE => false
  | Label.REAL => true

/-- Single-model aggregation over the scored frames (demo_server.py lines
795-798 count the frames, lines 877-895 pick the majority label and average
the confidences of the frames carrying the winning label). -/
def aggregateSingle (frameResults : List Adjusted) : SingleVideoVerdict :=
  if ((frameResults.filter isFakeAdj).length >
      (frameResults.filter (fun a => !isFakeAdj a)).length) then
    ⟨Label.FAKE,
      mean ((frameResults.filter isFakeAdj).map Adjusted.confidence),
      frameResults.length,
      (frameResults.filter isFakeAdj).length,
      (frameResults.filter (fun a => !isFakeAdj a)).length⟩
  else
    ⟨Label.REAL,
      mean ((frameResults.filter isRealAdj).map Adjusted.confidence),
      frameResults.length,
      (frameResults.filter isFakeAdj).length,
      (frameResults.filter (fun a => !isFakeAdj a)).length⟩

/-- The bucketing test of the video loops: `ens.prediction == FAKE`. -/
def isFakeVerdict (e : EnsembleVerdict) : Bool :=
  match e.prediction with
  | Label.FAKE => true
  | Label.REAL => false

/-- Ensemble-mode aggregation over the per-frame ensemble verdicts
(demo_server.py lines 784-791 count suspicious / FAKE / REAL frames, lines
911-942 bucket the confidences the same way and average the winning bucket). -/
def aggregateEnsemble (verdicts : List EnsembleVerdict) : EnsembleVideoVerdict :=
  if ((verdicts.filter (fun e => e.suspicious)).length >
        (verdicts.filter (fun e => !e.suspicious && isFakeVerdict e)).length ∧
      (verdicts.filter (fun e => e.suspicious)).length >
        (verdicts.filter (fun e => !e.suspicious && !isFakeVerdict e)).length) then
    ⟨VideoLabel.SUSPICIOUS,
      mean ((verdicts.filter (fun e => e.suspicious)).map EnsembleVerdict.confidence),
      verdicts.length,
      (verdicts.filter (fun e => !e.suspicious && isFakeVerdict e)).length,
      (verdicts.filter (fun e => !e.suspicious && !isFakeVerdict e)).length,
      (verdicts.filter (fun e => e.suspicious)).length⟩
  else if ((verdicts.filter (fun e => !e.suspicious && isFakeVerdict e)).length >
      (verdicts.filter (fun e => !e.suspicious && !isFakeVerdict e)).length) then
    ⟨VideoLabel.FAKE,
      mean ((verdicts.filter (fun e => !e.suspicious && isFakeVerdict e)).map EnsembleVerdict.confidence),
      verdicts.length,
      (verdicts.filter (fun e => !e.suspicious && isFakeVerdict e)).length,
      (verdicts.filter (fun e => !e.suspicious && !isFakeVerdict e)).length,
      (verdicts.filter (fun e => e.suspicious)).length⟩
  else
    ⟨VideoLabel.REAL,
      mean ((verdicts.filter (fun e => !e.suspicious && !isFakeVerdict e)).map EnsembleVerdict.confidence),
      verdicts.length,
      (verdicts.filter (fun e => !e.suspicious && isFakeVerdict e)).length,
      (verdicts.filter (fun e => !e.suspicious && !isFakeVerdict e)).length,
      (verdicts.filter (fun e => e.suspicious)).length⟩

/-- Per-video single-model pipeline (demo_server.py `process_video`,
lines 671-908): each frame is `none` when the face aligner returned `None`
(the loop then `continue`s without counting it, lines 705-709), otherwise the
model probability for the aligned face; empty extraction or zero scored
frames return an error dict, embedded as `none` (lines 678-681 and 965-966). -/
def processVideoSingle (T B : ℚ) (frames : List (Option ℚ)) : Option SingleVideoVerdict :=
  let scored := (frames.filterMap id).map (singleModelAdjusted T B)
  if scored.isEmpty then none
  else some (aggregateSingle scored)

/-- Per-video ensemble pipeline (demo_server.py `process_video`, lines
671-957): each frame with a face carries the raw per-model probabilities;
per-frame votes stay raw and the frame verdict comes from
`_calculate_ensemble_verdict` (lines 746-791). -/
def processVideoEnsemble (frames : List (Option (List ℚ))) : Option EnsembleVideoVerdict :=
  let verdicts := (frames.filterMap id).map
    (fun probs => calculateEnsembleVerdict (probs.map rawVote))
  if verdicts.isEmpty then none
  else some (aggregateEnsemble verdicts)

/-- Label rendered as the string the server sends. -/
def labelStr : Label → String
  | Label.FAKE => "FAKE"
  | Label.REAL => "REAL"

/-- Python substring membership `needle in hay` over character lists. -/
def strContains (needle : List Char) : List Char → Bool
  | [] => needle.isEmpty
  | c :: t => needle.isPrefixOf (c :: t) || strContains needle t

/-- The check that the lowercased error message contains the text `no face`, from the handler
(native_host/server.py line 545). -/
def mentionsNoFace (msg : String) : Bool :=
  strContains "no face".toList (msg.toList.map Char.toLower)

/-- The fields of the per-message JSON responses the claims are about:
the `type` tag and, for `result` messages, `prediction` and `confidence`. -/
structure WsResponse where
  rtype : String
  prediction : Option String
  confidence : Option ℚ
deriving DecidableEq, Repr

/-- One frame message of the websocket stream, reduced to the data the
handler branches on: whether `frameB64` was present, whether decoding
succeeded, and the face-aligner outcome for the decoded image. -/
structure FrameMsg where
  hasFrameData : Bool
  decodeOk : Bool
  faceAligned : Option Unit
deriving DecidableEq, Repr

/-- Final prediction/confidence extraction of the success path
(native_host/server.py lines 600-610). -/
def finalPrediction (results : List Vote × Option EnsembleVerdict) : String × ℚ :=
  match results.2 with
  | some e => (labelStr e.prediction, e.confidence)
  | none =>
      match results.1 with
      | v :: _ => (labelStr v.prediction, v.confidence)
      | [] => ("ERROR", 0)

/-- Per-frame-message branch of `handler` (native_host/server.py lines
500-650): missing or undecodable frame data sends an `error` response; an
inference error mentioning `no face` sends a `result` response with
prediction `NO_FACE` and confidence 0 (lines 540-561); other inference
errors send an `error` response; success sends a `result` response. Every
branch `continue`s, so the second component (the connection stays open) is
`true` on all paths. -/
def handleFrame (T B : ℚ) (modelProbs : List ℚ) (m : FrameMsg) : WsResponse × Bool :=
  if !m.hasFrameData then (⟨"error", none, none⟩, true)
  else if !m.decodeOk then (⟨"error", none, none⟩, true)
  else
    match inferUsingServer T B modelProbs m.faceAligned with
    | Except.error msg =>
        if mentionsNoFace msg then (⟨"result", some "NO_FACE", some 0⟩, true)
        else (⟨"error", none, none⟩, true)
    | Except.ok results =>
        (⟨"result", some (finalPrediction results).1, some (finalPrediction results).2⟩, true)

/-- The `async for msg in ws` loop of `handler`: messages are processed in
order for as long as the per-message step keeps the connection open. -/
def runHandler (T B : ℚ) (modelProbs : List ℚ) : List FrameMsg → List WsResponse
  | [] => []
  | m :: rest =>
      if (handleFrame T B modelProbs m).2 then
        (handleFrame T B modelProbs m).1 :: runHandler T B modelProbs rest
      else [(handleFrame T B modelProbs m).1]

/-! ## Helper lemmas -/

theorem pyMax_pair (a b : Vote) :
    pyMax [a, b] = some (if a.confidence < b.confidence then b else a) := rfl

theorem ite_vote_confidence (a b : Vote) :
    (if a.confidence < b.confidence then b else a).confidence =
      max a.confidence b.confidence := by
  rcases le_or_lt b.confidence a.confidence with h | h
  · rw [if_neg (not_lt.2 h), max_eq_left h]
  · rw [if_pos h, max_eq_right h.le]

theorem addSuspiciousFlag_fields (r : PreVerdict) :
    (addSuspiciousFlag r).prediction = r.prediction ∧
    (addSuspiciousFlag r).confidence = r.confidence ∧
    ((addSuspiciousFlag r).suspicious = true ↔
      1/2 ≤ r.confidence ∧ r.confidence ≤ 65/100) := by
  by_cases h : 1/2 ≤ r.confidence ∧ r.confidence ≤ 65/100 <;>
    simp [addSuspiciousFlag, h]

/-! ## Claims -/

/-- Claim C2: for a raw probability (label FAKE iff `p >= 0.5`, confidence
`max p (1-p)`), the adjusted prediction converts a low-confidence FAKE to a
boosted REAL with `was_converted = true`, boosts a REAL without marking it
converted, and leaves a confident FAKE unchanged; raw probability 0.60 with
T = 0.70 and B = 0.25 yields REAL at confidence 0.85, converted. -/
theorem single_threshold_adjustment_spec (T B p : ℚ) (h0 : 0 ≤ p) (h1 : p ≤ 1) :
    (rawLabel p = Label.FAKE ↔ 1/2 ≤ p) ∧
    rawConf p = max p (1 - p) ∧
    (rawLabel p = Label.FAKE → rawConf p < T →
      singleModelAdjusted T B p = ⟨Label.REAL, min (rawConf p + B) 1, true⟩) ∧
    (rawLabel p = Label.REAL →
      singleModelAdjusted T B p = ⟨Label.REAL, min (rawConf p + B) 1, false⟩) ∧
    (rawLabel p = Label.FAKE → T ≤ rawConf p →
      singleModelAdjusted T B p = ⟨Label.FAKE, rawConf p, false⟩) ∧
    singleModelAdjusted (70/100) (25/100) (60/100) = ⟨Label.REAL, 85/100, true⟩ := by
  refine ⟨?_, ?_, ?_, ?_, ?_, ?_⟩
  · by_cases h : 1/2 ≤ p <;> simp [rawLabel, h]
  · rcases le_or_lt (1/2 : ℚ) p with h | h
    · rw [rawConf, if_pos h, eq_comm, max_eq_left (by linarith)]
    · rw [rawConf, if_neg (not_le.2 h), eq_comm, max_eq_right (by linarith)]
  · intro hl hc
    simp [singleModelAdjusted, applyConfidenceThreshold, hl, hc]
  · intro hl
    simp [singleModelAdjusted, applyConfidenceThreshold, hl]
  · intro hl hc
    simp [singleModelAdjusted, applyConfidenceThreshold, hl, hc.not_lt]
  · norm_num [singleModelAdjusted, applyConfidenceThreshold, rawLabel, rawConf]

/-- Witness for C2 at raw probability 0.60 with default threshold and boost. -/
theorem single_threshold_adjustment_spec_witness :
    singleModelAdjusted (70/100) (25/100) (60/100) = ⟨Label.REAL, 85/100, true⟩ :=
  (single_threshold_adjustment_spec (70/100) (25/100) (60/100)
    (by norm_num) (by norm_num)).2.2.2.2.2

/-- Claim C10: the single-model adjustment never outputs a FAKE label with
confidence below the threshold `T`; any raw FAKE below `T` comes out REAL. -/
theorem no_low_confidence_fake_output (T B p : ℚ) (h0 : 0 ≤ p) (h1 : p ≤ 1) :
    ((singleModelAdjusted T B p).label = Label.FAKE →
      T ≤ (singleModelAdjusted T B p).confidence) ∧
    (rawLabel p = Label.FAKE → rawConf p < T →
      (singleModelAdjusted T B p).label = Label.REAL) := by
  constructor
  · intro h
    by_cases hl : rawLabel p = Label.FAKE
    · by_cases hc : rawConf p < T
      · exfalso
        simp [singleModelAdjusted, applyConfidenceThreshold, hl, hc] at h
      · have hout : singleModelAdjusted T B p = ⟨Label.FAKE, rawConf p, false⟩ := by
          simp [singleModelAdjusted, applyConfidenceThreshold, hl, hc]
        rw [hout]
        exact not_lt.1 hc
    · have hl2 : rawLabel p = Label.REAL := by
        cases hrl : rawLabel p
        · exact absurd hrl hl
        · rfl
      exfalso
      simp [singleModelAdjusted, applyConfidenceThreshold, hl2] at h
  · intro hl hc
    simp [singleModelAdjusted, applyConfidenceThreshold, hl, hc]

/-- Witness for C10: raw probability 0.60 (FAKE at 0.60 < 0.70) comes out REAL. -/
theorem no_low_confidence_fake_output_witness :
    (singleModelAdjusted (70/100) (25/100) (60/100)).label = Label.REAL :=
  (no_low_confidence_fake_output (70/100) (25/100) (60/100)
      (by norm_num) (by norm_num)).2
    (by norm_num [rawLabel]) (by norm_num [rawConf])

/-- Claim C4 counterexample: re-applying `_apply_confidence_threshold` to its
own output is not a no-op. Raw probability 0.60 adjusts to
(REAL, 0.85, converted); re-applying yields (REAL, 1.0, not converted), so
both the confidence and the `was_converted` flag change. -/
theorem threshold_adjustment_not_idempotent :
    applyConfidenceThreshold (70/100) (25/100)
        (singleModelAdjusted (70/100) (25/100) (60/100)).label
        (singleModelAdjusted (70/100) (25/100) (60/100)).confidence
      ≠ singleModelAdjusted (70/100) (25/100) (60/100) := by
  norm_num [singleModelAdjusted, applyConfidenceThreshold, rawLabel, rawConf, min_def]

/-- Claim C4 as amended: re-applying the adjustment to its own output
preserves the label — a FAKE output is returned completely unchanged, and a
REAL output (in particular a converted one) stays REAL and is never
re-converted to FAKE — but a REAL output is boosted again to
`min (confidence + B) 1` with `was_converted = false`, so re-application is
not a no-op in general. -/
theorem threshold_adjustment_label_idempotent (T B : ℚ) (l : Label) (c : ℚ)
    (a : Adjusted) (h : applyConfidenceThreshold T B l c = a) :
    (applyConfidenceThreshold T B a.label a.confidence).label = a.label ∧
    (a.label = Label.FAKE → applyConfidenceThreshold T B a.label a.confidence = a) ∧
    (a.label = Label.REAL → applyConfidenceThreshold T B a.label a.confidence =
      ⟨Label.REAL, min (a.confidence + B) 1, false⟩) := by
  subst h
  cases l with
  | FAKE =>
      by_cases hc : c < T
      · simp [applyConfidenceThreshold, hc]
      · simp [applyConfidenceThreshold, hc]
  | REAL =>
      simp [applyConfidenceThreshold]

/-- Witness for the amended C4: the converted output (REAL, 0.85) is
re-boosted to (REAL, min 1.10 1, not converted), staying REAL. -/
theorem threshold_adjustment_label_idempotent_witness :
    applyConfidenceThreshold (70/100) (25/100) Label.REAL (85/100)
      = ⟨Label.REAL, min ((85 : ℚ)/100 + 25/100) 1, false⟩ :=
  (threshold_adjustment_label_idempotent (70/100) (25/100) Label.FAKE (60/100)
      ⟨Label.REAL, 85/100, true⟩
      (by norm_num [applyConfidenceThreshold])).2.2 rfl

/-- Claim C8: whatever voting rule produced the ensemble verdict, its
suspicious flag is true exactly when the selected confidence lies in the
closed band [0.50, 0.65]. -/
theorem suspicious_flag_iff_band (results : List Vote) :
    ((calculateEnsembleVerdict results).suspicious = true ↔
      1/2 ≤ (calculateEnsembleVerdict results).confidence ∧
        (calculateEnsembleVerdict results).confidence ≤ 65/100) := by
  have key : ∀ r : PreVerdict, ((addSuspiciousFlag r).suspicious = true ↔
      1/2 ≤ (addSuspiciousFlag r).confidence ∧
        (addSuspiciousFlag r).confidence ≤ 65/100) := by
    intro r
    by_cases h : 1/2 ≤ r.confidence ∧ r.confidence ≤ 65/100 <;>
      simp [addSuspiciousFlag, h]
  unfold calculateEnsembleVerdict fallbackVerdict
  repeat' split
  all_goals exact key _

theorem calcEnsemble_rule3 (results : List Vote) (f r1 r2 : Vote)
    (hf : results.filter isFakeVote = [f])
    (hr : results.filter (fun v => !isFakeVote v) = [r1, r2]) :
    calculateEnsembleVerdict results =
      (if f.confidence > 85/100 then
        if (if r1.confidence < r2.confidence then r2 else r1).confidence > 85/100 then
          addSuspiciousFlag ⟨(if r1.confidence < r2.confidence then r2 else r1).prob,
            Label.REAL, (if r1.confidence < r2.confidence then r2 else r1).confidence⟩
        else
          addSuspiciousFlag ⟨f.prob, Label.FAKE, f.confidence⟩
      else
        addSuspiciousFlag ⟨(if r1.confidence < r2.confidence then r2 else r1).prob,
          Label.REAL, (if r1.confidence < r2.confidence then r2 else r1).confidence⟩) := by
  unfold calculateEnsembleVerdict
  rw [hf, hr]
  norm_num [pyMax]

theorem calcEnsemble_rule4 (results : List Vote) (r f1 f2 : Vote)
    (hr : results.filter (fun v => !isFakeVote v) = [r])
    (hf : results.filter isFakeVote = [f1, f2]) :
    calculateEnsembleVerdict results =
      (if r.confidence > 85/100 then
        if (if f1.confidence < f2.confidence then f2 else f1).confidence > 85/100 then
          addSuspiciousFlag ⟨(if f1.confidence < f2.confidence then f2 else f1).prob,
            Label.FAKE, (if f1.confidence < f2.confidence then f2 else f1).confidence⟩
        else
          addSuspiciousFlag ⟨r.prob, Label.REAL, r.confidence⟩
      else
        addSuspiciousFlag ⟨(if f1.confidence < f2.confidence then f2 else f1).prob,
          Label.FAKE, (if f1.confidence < f2.confidence then f2 else f1).confidence⟩) := by
  unfold calculateEnsembleVerdict
  rw [hf, hr]
  norm_num [pyMax]

/-- Claim C1: with exactly 1 FAKE vote and 2 REAL votes, the lone FAKE
overrides the majority iff its confidence exceeds 0.85 and the best REAL
confidence does not (counter-override gives REAL back when both exceed
0.85); otherwise REAL wins with the best REAL confidence. The 2 FAKE /
1 REAL case is symmetric, and votes (FAKE 0.90, REAL 0.60, REAL 0.55)
produce verdict FAKE at confidence 0.90 and not suspicious. -/
theorem ensemble_split_vote_verdict :
    (∀ (results : List Vote) (f r1 r2 : Vote),
      results.filter isFakeVote = [f] →
      results.filter (fun v => !isFakeVote v) = [r1, r2] →
      ((f.confidence > 85/100 → max r1.confidence r2.confidence > 85/100 →
          (calculateEnsembleVerdict results).prediction = Label.REAL ∧
          (calculateEnsembleVerdict results).confidence =
            max r1.confidence r2.confidence) ∧
       (f.confidence > 85/100 → ¬ max r1.confidence r2.confidence > 85/100 →
          (calculateEnsembleVerdict results).prediction = Label.FAKE ∧
          (calculateEnsembleVerdict results).confidence = f.confidence) ∧
       (¬ f.confidence > 85/100 →
          (calculateEnsembleVerdict results).prediction = Label.REAL ∧
          (calculateEnsembleVerdict results).confidence =
            max r1.confidence r2.confidence))) ∧
    (∀ (results : List Vote) (r f1 f2 : Vote),
      results.filter (fun v => !isFakeVote v) = [r] →
      results.filter isFakeVote = [f1, f2] →
      ((r.confidence > 85/100 → max f1.confidence f2.confidence > 85/100 →
          (calculateEnsembleVerdict results).prediction = Label.FAKE ∧
          (calculateEnsembleVerdict results).confidence =
            max f1.confidence f2.confidence) ∧
       (r.confidence > 85/100 → ¬ max f1.confidence f2.confidence > 85/100 →
          (calculateEnsembleVerdict results).prediction = Label.REAL ∧
          (calculateEnsembleVerdict results).confidence = r.confidence) ∧
       (¬ r.confidence > 85/100 →
          (calculateEnsembleVerdict results).prediction = Label.FAKE ∧
          (calculateEnsembleVerdict results).confidence =
            max f1.confidence f2.confidence))) ∧
    calculateEnsembleVerdict
        [⟨Label.FAKE, 9/10, 9/10⟩, ⟨Label.REAL, 6/10, 2/5⟩, ⟨Label.REAL, 11/20, 9/20⟩]
      = ⟨9/10, Label.FAKE, 9/10, false⟩ := by
  refine ⟨?_, ?_, ?_⟩
  · intro results f r1 r2 hf hr
    rw [calcEnsemble_rule3 results f r1 r2 hf hr]
    rw [show ((if r1.confidence < r2.confidence then r2 else r1).confidence)
          = max r1.confidence r2.confidence from ite_vote_confidence r1 r2]
    refine ⟨fun h85 hbr => ?_, fun h85 hbr => ?_, fun h85 => ?_⟩
    · rw [if_pos h85, if_pos hbr]
      exact ⟨rfl, rfl⟩
    · rw [if_pos h85, if_neg hbr]
      exact ⟨rfl, rfl⟩
    · rw [if_neg h85]
      exact ⟨rfl, rfl⟩
  · intro results r f1 f2 hr hf
    rw [calcEnsemble_rule4 results r f1 f2 hr hf]
    rw [show ((if f1.confidence < f2.confidence then f2 else f1).confidence)
          = max f1.confidence f2.confidence from ite_vote_confidence f1 f2]
    refine ⟨fun h85 hbf => ?_, fun h85 hbf => ?_, fun h85 => ?_⟩
    · rw [if_pos h85, if_pos hbf]
      exact ⟨rfl, rfl⟩
    · rw [if_pos h85, if_neg hbf]
      exact ⟨rfl, rfl⟩
    · rw [if_neg h85]
      exact ⟨rfl, rfl⟩
  · norm_num [calculateEnsembleVerdict, isFakeVote, pyMax, addSuspiciousFlag, List.filter]

/-- Witness for C1: the override branch at votes
(FAKE 0.90, REAL 0.60, REAL 0.55). -/
theorem ensemble_split_vote_verdict_witness :
    (calculateEnsembleVerdict
        [⟨Label.FAKE, 9/10, 9/10⟩, ⟨Label.REAL, 6/10, 2/5⟩, ⟨Label.REAL, 11/20, 9/20⟩]).prediction
        = Label.FAKE ∧
    (calculateEnsembleVerdict
        [⟨Label.FAKE, 9/10, 9/10⟩, ⟨Label.REAL, 6/10, 2/5⟩, ⟨Label.REAL, 11/20, 9/20⟩]).confidence
        = (⟨Label.FAKE, 9/10, 9/10⟩ : Vote).confidence :=
  (ensemble_split_vote_verdict.1
      [⟨Label.FAKE, 9/10, 9/10⟩, ⟨Label.REAL, 6/10, 2/5⟩, ⟨Label.REAL, 11/20, 9/20⟩]
      ⟨Label.FAKE, 9/10, 9/10⟩ ⟨Label.REAL, 6/10, 2/5⟩ ⟨Label.REAL, 11/20, 9/20⟩
      rfl rfl).2.1
    (by norm_num) (by norm_num [max_def])

/-- Claim C3: with more than one model, the per-model entries carry the raw
label and raw confidence (no threshold conversion, no boost), and the
ensemble verdict is computed from exactly those raw votes, both in
`process_image` and in the `infer_using_server` of the websocket server. -/
theorem ensemble_mode_uses_raw_votes (T B : ℚ) (probs : List ℚ)
    (h : 1 < probs.length) :
    (processImage T B probs).1 = probs.map rawVote ∧
    (processImage T B probs).2 =
      some (calculateEnsembleVerdict (probs.map rawVote)) ∧
    inferUsingServer T B probs (some ()) =
      Except.ok (probs.map rawVote,
        some (calculateEnsembleVerdict (probs.map rawVote))) := by
  have hne : ¬ probs.length = 1 := by omega
  refine ⟨?_, ?_, ?_⟩ <;> simp [processImage, inferUsingServer, hne, h]

/-- Witness for C3 with two model probabilities 0.9 and 0.4. -/
theorem ensemble_mode_uses_raw_votes_witness :
    (processImage (70/100) (25/100) [9/10, 2/5]).1 = [9/10, 2/5].map rawVote :=
  (ensemble_mode_uses_raw_votes (70/100) (25/100) [9/10, 2/5] (by simp)).1

/-- Claim C9: a streamed frame in which the face aligner finds no face gets a
per-message response of type `result` with prediction `NO_FACE` (not an
`error` response), the result does not depend on what the models would have
predicted (inference is short-circuited), and the handler loop goes on to
process the remaining messages normally. -/
theorem no_face_streaming_response (T B : ℚ) (probs otherProbs : List ℚ)
    (rest : List FrameMsg) :
    (handleFrame T B probs ⟨true, true, none⟩).1 =
      ⟨"result", some "NO_FACE", some 0⟩ ∧
    (handleFrame T B probs ⟨true, true, none⟩).1.rtype = "result" ∧
    handleFrame T B probs ⟨true, true, none⟩ =
      handleFrame T B otherProbs ⟨true, true, none⟩ ∧
    runHandler T B probs (⟨true, true, none⟩ :: rest) =
      (handleFrame T B probs ⟨true, true, none⟩).1 :: runHandler T B probs rest := by
  have hmsg : mentionsNoFace "No face detected" = true := by decide
  have h1 : ∀ ps : List ℚ, handleFrame T B ps ⟨true, true, none⟩ =
      (⟨"result", some "NO_FACE", some 0⟩, true) := by
    intro ps
    simp [handleFrame, inferUsingServer, hmsg]
  refine ⟨by rw [h1], by rw [h1], by rw [h1, h1], ?_⟩
  rw [runHandler, h1]
  simp

theorem aggregateSingle_counts (l : List Adjusted) :
    (aggregateSingle l).fake_frames = (l.filter isFakeAdj).length ∧
    (aggregateSingle l).real_frames = (l.filter (fun a => !isFakeAdj a)).length ∧
    (aggregateSingle l).total_frames_analyzed = l.length := by
  unfold aggregateSingle
  split <;> exact ⟨rfl, rfl, rfl⟩

theorem aggregateEnsemble_counts (l : List EnsembleVerdict) :
    (aggregateEnsemble l).fake_frames =
      (l.filter (fun e => !e.suspicious && isFakeVerdict e)).length ∧
    (aggregateEnsemble l).real_frames =
      (l.filter (fun e => !e.suspicious && !isFakeVerdict e)).length ∧
    (aggregateEnsemble l).suspicious_frames =
      (l.filter (fun e => e.suspicious)).length ∧
    (aggregateEnsemble l).total_frames_analyzed = l.length := by
  unfold aggregateEnsemble
  split
  · exact ⟨rfl, rfl, rfl, rfl⟩
  · split <;> exact ⟨rfl, rfl, rfl, rfl⟩

theorem ensembleVerdict_partition (l : List EnsembleVerdict) :
    (l.filter (fun e => !e.suspicious && isFakeVerdict e)).length +
      (l.filter (fun e => !e.suspicious && !isFakeVerdict e)).length +
      (l.filter (fun e => e.suspicious)).length = l.length := by
  induction l with
  | nil => rfl
  | cons a t ih =>
      by_cases hs : a.suspicious = true
      · simp only [List.filter_cons, hs]
        simp
        omega
      · by_cases hf : isFakeVerdict a = true <;>
          · simp only [List.filter_cons, hs, hf]
            simp [hs, hf]
            omega

/-- Claim C5: in ensemble mode a video is SUSPICIOUS when the suspicious
frame count strictly beats both the FAKE and REAL counts, otherwise FAKE
when FAKE frames strictly outnumber REAL frames, otherwise REAL; the video
confidence is the mean of the frame confidences in the winning bucket, and the
mean of an empty bucket is 0. -/
theorem ensemble_video_majority_spec (verdicts : List EnsembleVerdict)
    (sc fc rc : ℕ)
    (hsc : sc = (verdicts.filter (fun e => e.suspicious)).length)
    (hfc : fc = (verdicts.filter (fun e => !e.suspicious && isFakeVerdict e)).length)
    (hrc : rc = (verdicts.filter (fun e => !e.suspicious && !isFakeVerdict e)).length) :
    ((sc > fc ∧ sc > rc) →
      (aggregateEnsemble verdicts).video_verdict = VideoLabel.SUSPICIOUS ∧
      (aggregateEnsemble verdicts).video_confidence =
        mean ((verdicts.filter (fun e => e.suspicious)).map EnsembleVerdict.confidence)) ∧
    (¬(sc > fc ∧ sc > rc) → fc > rc →
      (aggregateEnsemble verdicts).video_verdict = VideoLabel.FAKE ∧
      (aggregateEnsemble verdicts).video_confidence =
        mean ((verdicts.filter
          (fun e => !e.suspicious && isFakeVerdict e)).map EnsembleVerdict.confidence)) ∧
    (¬(sc > fc ∧ sc > rc) → ¬ fc > rc →
      (aggregateEnsemble verdicts).video_verdict = VideoLabel.REAL ∧
      (aggregateEnsemble verdicts).video_confidence =
        mean ((verdicts.filter
          (fun e => !e.suspicious && !isFakeVerdict e)).map EnsembleVerdict.confidence)) ∧
    mean ([] : List ℚ) = 0 := by
  subst hsc; subst hfc; subst hrc
  refine ⟨fun hS => ?_, fun hS hF => ?_, fun hS hF => ?_, by norm_num [mean]⟩
  · unfold aggregateEnsemble
    rw [if_pos hS]
    exact ⟨rfl, rfl⟩
  · unfold aggregateEnsemble
    rw [if_neg hS, if_pos hF]
    exact ⟨rfl, rfl⟩
  · unfold aggregateEnsemble
    rw [if_neg hS, if_neg hF]
    exact ⟨rfl, rfl⟩

/-- Witness for C5: two suspicious frames at 0.60 against one FAKE frame
yield a SUSPICIOUS video. -/
theorem ensemble_video_majority_spec_witness :
    (aggregateEnsemble [⟨1/2, Label.FAKE, 6/10, true⟩, ⟨1/2, Label.FAKE, 6/10, true⟩,
        ⟨9/10, Label.FAKE, 9/10, false⟩]).video_verdict = VideoLabel.SUSPICIOUS ∧
    (aggregateEnsemble [⟨1/2, Label.FAKE, 6/10, true⟩, ⟨1/2, Label.FAKE, 6/10, true⟩,
        ⟨9/10, Label.FAKE, 9/10, false⟩]).video_confidence =
      mean ((([⟨1/2, Label.FAKE, 6/10, true⟩, ⟨1/2, Label.FAKE, 6/10, true⟩,
        ⟨9/10, Label.FAKE, 9/10, false⟩] : List EnsembleVerdict).filter
          (fun e => e.suspicious)).map EnsembleVerdict.confidence) :=
  (ensemble_video_majority_spec
      [⟨1/2, Label.FAKE, 6/10, true⟩, ⟨1/2, Label.FAKE, 6/10, true⟩,
        ⟨9/10, Label.FAKE, 9/10, false⟩]
      2 1 0 rfl rfl rfl).1 (by norm_num)

/-- Claim C6: in single-model mode the video label is FAKE iff strictly more
scored frames are FAKE than REAL (ties go to REAL), the video confidence is
the mean of the adjusted confidences of the frames matching the winning
label, and 6 FAKE frames at 0.8 against 4 REAL frames at 0.6 give verdict
FAKE at confidence 0.8 with counts 6 and 4. -/
theorem single_video_majority_spec (frameResults : List Adjusted) (fc rc : ℕ)
    (hne : frameResults ≠ [])
    (hfc : fc = (frameResults.filter isFakeAdj).length)
    (hrc : rc = (frameResults.filter (fun a => !isFakeAdj a)).length) :
    ((aggregateSingle frameResults).video_verdict = Label.FAKE ↔ fc > rc) ∧
    (fc > rc →
      (aggregateSingle frameResults).video_confidence =
        mean ((frameResults.filter isFakeAdj).map Adjusted.confidence)) ∧
    (¬ fc > rc →
      (aggregateSingle frameResults).video_verdict = Label.REAL ∧
      (aggregateSingle frameResults).video_confidence =
        mean ((frameResults.filter isRealAdj).map Adjusted.confidence)) ∧
    (aggregateSingle frameResults).fake_frames = fc ∧
    (aggregateSingle frameResults).real_frames = rc ∧
    aggregateSingle (List.replicate 6 ⟨Label.FAKE, 8/10, false⟩ ++
        List.replicate 4 ⟨Label.REAL, 6/10, false⟩)
      = ⟨Label.FAKE, 8/10, 10, 6, 4⟩ := by
  subst hfc; subst hrc
  refine ⟨?_, fun hgt => ?_, fun hle => ?_, ?_, ?_, ?_⟩
  · by_cases hgt : (frameResults.filter isFakeAdj).length >
        (frameResults.filter (fun a => !isFakeAdj a)).length
    · simp [aggregateSingle, hgt]
    · simp [aggregateSingle, hgt]
  · unfold aggregateSingle
    rw [if_pos hgt]
  · unfold aggregateSingle
    rw [if_neg hle]
    exact ⟨rfl, rfl⟩
  · exact (aggregateSingle_counts frameResults).1
  · exact (aggregateSingle_counts frameResults).2.1
  · norm_num [aggregateSingle, isFakeAdj, isRealAdj, mean, List.filter, List.replicate]

/-- Witness for C6 on the 6-FAKE / 4-REAL frame list. -/
theorem single_video_majority_spec_witness :
    (aggregateSingle (List.replicate 6 (⟨Label.FAKE, 8/10, false⟩ : Adjusted) ++
        List.replicate 4 (⟨Label.REAL, 6/10, false⟩ : Adjusted))).video_confidence =
      mean (((List.replicate 6 (⟨Label.FAKE, 8/10, false⟩ : Adjusted) ++
        List.replicate 4 (⟨Label.REAL, 6/10, false⟩ : Adjusted)).filter
          isFakeAdj).map Adjusted.confidence) :=
  (single_video_majority_spec
      (List.replicate 6 (⟨Label.FAKE, 8/10, false⟩ : Adjusted) ++
        List.replicate 4 (⟨Label.REAL, 6/10, false⟩ : Adjusted))
      6 4 (by simp) (by rfl) (by rfl)).2.1 (by norm_num)

/-- Claim C7: the video verdict counts partition the scored frames — in
single-model mode FAKE plus REAL frames equal the analyzed total, in
ensemble mode FAKE plus REAL plus suspicious frames do — the analyzed total
is the number of frames in which a face was found, and a frame whose face
alignment returned `None` changes nothing at all. -/
theorem video_counts_partition :
    (∀ (T B : ℚ) (frames : List (Option ℚ)) (v : SingleVideoVerdict),
      processVideoSingle T B frames = some v →
      v.fake_frames + v.real_frames = v.total_frames_analyzed ∧
      v.total_frames_analyzed = (frames.filterMap id).length ∧
      processVideoSingle T B (none :: frames) = processVideoSingle T B frames) ∧
    (∀ (frames : List (Option (List ℚ))) (w : EnsembleVideoVerdict),
      processVideoEnsemble frames = some w →
      w.fake_frames + w.real_frames + w.suspicious_frames = w.total_frames_analyzed ∧
      w.total_frames_analyzed = (frames.filterMap id).length ∧
      processVideoEnsemble (none :: frames) = processVideoEnsemble frames) := by
  constructor
  · intro T B frames v h
    have hcons : processVideoSingle T B (none :: frames) =
        processVideoSingle T B frames := by
      unfold processVideoSingle
      simp [List.filterMap_cons]
    unfold processVideoSingle at h
    set scored := (frames.filterMap id).map (singleModelAdjusted T B) with hs
    by_cases he : scored.isEmpty
    · rw [if_pos he] at h
      cases h
    · rw [if_neg he] at h
      obtain rfl : aggregateSingle scored = v := Option.some.inj h
      obtain ⟨h1, h2, h3⟩ := aggregateSingle_counts scored
      refine ⟨?_, ?_, hcons⟩
      · rw [h1, h2, h3]
        exact (List.length_eq_length_filter_add isFakeAdj).symm
      · rw [h3, hs, List.length_map]
  · intro frames w h
    have hcons : processVideoEnsemble (none :: frames) =
        processVideoEnsemble frames := by
      unfold processVideoEnsemble
      simp [List.filterMap_cons]
    unfold processVideoEnsemble at h
    set verdicts := (frames.filterMap id).map
      (fun probs => calculateEnsembleVerdict (probs.map rawVote)) with hvs
    by_cases he : verdicts.isEmpty
    · rw [if_pos he] at h
      cases h
    · rw [if_neg he] at h
      obtain rfl : aggregateEnsemble verdicts = w := Option.some.inj h
      obtain ⟨h1, h2, h3, h4⟩ := aggregateEnsemble_counts verdicts
      refine ⟨?_, ?_, hcons⟩
      · rw [h1, h2, h3, h4]
        exact ensembleVerdict_partition verdicts
      · rw [h4, hvs, List.length_map]

/-- Witness for C7: a two-frame single-model video with one no-face frame. -/
theorem video_counts_partition_witness :
    ((⟨Label.REAL, 85/100, 1, 0, 1⟩ : SingleVideoVerdict).fake_frames +
        (⟨Label.REAL, 85/100, 1, 0, 1⟩ : SingleVideoVerdict).real_frames =
      (⟨Label.REAL, 85/100, 1, 0, 1⟩ : SingleVideoVerdict).total_frames_analyzed) ∧
    (⟨Label.REAL, 85/100, 1, 0, 1⟩ : SingleVideoVerdict).total_frames_analyzed =
      (([some (60/100), none] : List (Option ℚ)).filterMap id).length ∧
    processVideoSingle (70/100) (25/100) (none :: [some (60/100), none]) =
      processVideoSingle (70/100) (25/100) [some (60/100), none] :=
  video_counts_partition.1 (70/100) (25/100) [some (60/100), none]
    ⟨Label.REAL, 85/100, 1, 0, 1⟩
    (by norm_num [processVideoSingle, singleModelAdjusted, applyConfidenceThreshold,
      rawLabel, rawConf, aggregateSingle, isFakeAdj, isRealAdj, mean, List.filterMap])

end SpotifAI
